import Mathlib

/-!
Shallow embedding of the data/charting pipeline of `data_analyzer.py`
(kospi-investor-flow): a pandas DataFrame is modelled as a list of column
names plus positional rows of cells; numeric cells are `Int` (floating
point is out of scope for the claims checked here), dates are calendar-day
numbers plus a minute-of-day.
-/

namespace KospiFlow

/-- A cell of the loaded table: numeric, text, a parsed datetime, or
missing (NaN / NaT). -/
inductive Value where
  | num (v : Int)
  | str (s : String)
  | datetime (day : Int) (minuteOfDay : Nat)
  | missing
deriving DecidableEq

/-- The in-memory table: ordered column labels and positional rows
(each row lists its cells in column order), as a pandas DataFrame. -/
structure DataFrame where
  cols : List String
  rows : List (List Value)
deriving DecidableEq

/-- Position of a column label in the column list (first occurrence),
modelling column lookup `df[name]`; `none` models a KeyError. -/
def colIndex (n : String) : List String → Option Nat
  | [] => none
  | c :: cs => if c = n then some 0 else (colIndex n cs).map (· + 1)

/-- The cell sequence of a named column; `[]` when the column is absent
(callers below only use this under an is-present guard, matching
`if name in df.columns`). -/
def colValues (df : DataFrame) (n : String) : List Value :=
  match colIndex n df.cols with
  | some i => df.rows.map (fun r => r.getD i Value.missing)
  | none => []

/-- Model of `pd.to_numeric(x, errors="coerce")` on one cell: numeric
cells pass through, anything else becomes NaN (`none`). -/
def toNumeric : Value → Option Int
  | .num v => some v
  | _ => none

/-- Numeric coercion followed by `.fillna(0)`: non-numeric becomes 0. -/
def coerceZero (v : Value) : Int :=
  (toNumeric v).getD 0

/-- Numeric coercion keeping NaN: non-numeric becomes the missing marker
(the raw-view projection of one cell). -/
def coerceRaw (v : Value) : Value :=
  match toNumeric v with
  | some n => Value.num n
  | none => Value.missing

/-- Running sum (`Series.cumsum`) with explicit accumulator. -/
def cumsum (acc : Int) : List Int → List Int
  | [] => []
  | x :: xs => (acc + x) :: cumsum (acc + x) xs

/-- The accumulated projection of a column:
`pd.to_numeric(col, errors="coerce").fillna(0).cumsum()`. -/
def accValues (vs : List Value) : List Int :=
  cumsum 0 (vs.map coerceZero)

/-- The fixed per-series palette `SERIES_COLORS` of `data_analyzer.py`
(a dict keyed by series label; `none` for labels outside the dict). -/
def SERIES_COLORS (s : String) : Option String :=
  if s = "지수" then some "#1f77b4"
  else if s = "외국인" then some "#2ecc71"
  else if s = "개인" then some "#e74c3c"
  else if s = "기관종합" then some "#3498db"
  else none

/-- One `go.Scatter` trace of a figure: the source series label it was
built from, the displayed legend name, the y-axis it is attached to,
the explicit line color if one is set in its `line=dict(...)`, and its
y data. -/
structure Trace where
  series : String
  name : String
  axis : String
  color : Option String
  y : List Value
deriving DecidableEq

/-- The secondary (right-axis) series labels iterated by both figure
builders. -/
def secondary_names : List String := ["외국인", "개인", "기관종합"]

/-- All series labels a figure builder may place a trace for. -/
def requested_names : List String := "지수" :: secondary_names

/-- Model of `make_original_figure`: the 지수 trace (raw values, left
axis, no explicit color) followed by one right-axis trace per present
secondary column with `pd.to_numeric(..., errors="coerce")` values and
its `SERIES_COLORS` color. Absent columns are skipped. -/
def make_original_figure (df : DataFrame) : List Trace :=
  (match colIndex "지수" df.cols with
   | some i =>
      [{ series := "지수", name := "지수", axis := "y", color := none,
         y := df.rows.map (fun r => r.getD i Value.missing) }]
   | none => []) ++
  secondary_names.filterMap (fun n =>
    match colIndex n df.cols with
    | some i =>
        some { series := n, name := n, axis := "y2", color := SERIES_COLORS n,
               y := (df.rows.map (fun r => r.getD i Value.missing)).map coerceRaw }
    | none => none)

/-- Model of `make_accumulated_figure`: the 지수 trace kept raw (left
axis, no explicit color) followed by one right-axis trace per present
secondary column carrying the cumulative sum of the zero-filled numeric
coercion, legend-named with the " (누적)" suffix, colored from
`SERIES_COLORS`. Absent columns are skipped. -/
def make_accumulated_figure (df : DataFrame) : List Trace :=
  (match colIndex "지수" df.cols with
   | some i =>
      [{ series := "지수", name := "지수", axis := "y", color := none,
         y := df.rows.map (fun r => r.getD i Value.missing) }]
   | none => []) ++
  secondary_names.filterMap (fun n =>
    match colIndex n df.cols with
    | some i =>
        some { series := n, name := n ++ " (누적)", axis := "y2",
               color := SERIES_COLORS n,
               y := (accValues (df.rows.map (fun r => r.getD i Value.missing))).map Value.num }
    | none => none)

/-- Per-row date-range test of the `update_figures` mask:
`(날짜.dt.date >= start) & (날짜.dt.date <= end)`. The `.dt.date`
truncation keeps only the calendar day; a NaT (non-datetime) cell
compares False on both sides. -/
def dateInRange (v : Value) (s e : Int) : Bool :=
  match v with
  | .datetime day _ => decide (s ≤ day) && decide (day ≤ e)
  | _ => false

/-- The filtered row set `df[mask]` of `update_figures`, `i` being the
position of the 날짜 column. -/
def rows_in_scope (df : DataFrame) (i : Nat) (s e : Int) : List (List Value) :=
  df.rows.filter (fun r => dateInRange (r.getD i Value.missing) s e)

/-- Model of the `update_figures` callback: with both bounds present it
filters the rows by calendar date (`none` models the KeyError raised by
`df["날짜"]` when the date column is absent), otherwise it uses the full
table; both figures are rebuilt from the same row scope. -/
def update_figures (df : DataFrame) (sd ed : Option Int) :
    Option (List Trace × List Trace) :=
  match sd, ed with
  | some s, some e =>
    match colIndex "날짜" df.cols with
    | none => none
    | some i =>
      let f : DataFrame := ⟨df.cols, rows_in_scope df i s e⟩
      some (make_original_figure f, make_accumulated_figure f)
  | _, _ => some (make_original_figure df, make_accumulated_figure df)

/-- Calendar date (year, month, day with 1 ≤ month ≤ 12, 1 ≤ day) as a
day count from the era origin 0000-03-01, so that subtracting day counts
is exact date arithmetic (civil-from-days construction over eras of
146097 days). Used to give concrete calendar dates to the `Int` day
numbers of the model. -/
def daysFromCivil (y m d : Nat) : Int :=
  let yy := if m ≤ 2 then y - 1 else y
  let era := yy / 400
  let yoe := yy % 400
  let mp := if m ≤ 2 then m + 9 else m - 3
  let doy := (153 * mp + 2) / 5 + d - 1
  let doe := yoe * 365 + yoe / 4 - yoe / 100 + doy
  ((era * 146097 + doe : Nat) : Int)

/-- One entry of the `date_presets` dict: display label and day span
(`none` for the "all" preset). -/
structure PresetInfo where
  label : String
  days : Option Int
deriving DecidableEq

/-- The `date_presets` dict of `create_app`, as lookup by preset key. -/
def date_presets (p : String) : Option PresetInfo :=
  if p = "all" then some ⟨"전체 기간", none⟩
  else if p = "7d" then some ⟨"최근 7일", some 7⟩
  else if p = "30d" then some ⟨"최근 30일", some 30⟩
  else if p = "90d" then some ⟨"최근 90일", some 90⟩
  else if p = "1y" then some ⟨"최근 1년", some 365⟩
  else if p = "2y" then some ⟨"최근 2년", some 730⟩
  else if p = "3y" then some ⟨"최근 3년", some 1095⟩
  else if p = "4y" then some ⟨"최근 4년", some 1460⟩
  else if p = "5y" then some ⟨"최근 5년", some 1825⟩
  else if p = "10y" then some ⟨"최근 10년", some 3650⟩
  else none

/-- Model of the `update_date_range` callback. Dates are day numbers;
`min_date`/`max_date` come from the full table, `today` from the clock
at startup. `none` models `(no_update, no_update)` for an unrecognized
preset; the ISO formatting of the returned dates is dropped (it is a
bijective rendering). -/
def update_date_range (min_date max_date today : Int) (preset : String) :
    Option (Int × Int) :=
  match date_presets preset with
  | none => none
  | some info =>
    match info.days with
    | none => some (min_date, max_date)
    | some d => some (max (today - d) min_date, today)

/-- Effect of submitting a preset on the two date pickers' current
bounds: `no_update` leaves them unchanged, otherwise they are
overwritten with the resolved pair. -/
def applyPreset (min_date max_date today : Int) (bounds : Int × Int)
    (preset : String) : Int × Int :=
  match update_date_range min_date max_date today preset with
  | none => bounds
  | some b => b

/-- Model of Python `str.strip()` on a column label: drop whitespace
characters from both ends. -/
def stripLabel (s : String) : String :=
  ⟨((s.data.dropWhile Char.isWhitespace).reverse.dropWhile Char.isWhitespace).reverse⟩

/-- Model of `pd.to_datetime(col, errors="coerce")` on one cell:
already-datetime values pass through, anything else becomes NaT
(string-to-date parsing belongs to the external library and no claim
exercises it). -/
def to_datetime (v : Value) : Value :=
  match v with
  | .datetime day m => .datetime day m
  | _ => .missing

/-- Model of `load_data` on the table the external reader produced:
column labels are stripped of surrounding whitespace, and when a 날짜
column is present its cells are datetime-parsed; otherwise the table
passes through unchanged. -/
def load_data (raw : DataFrame) : DataFrame :=
  let cols := raw.cols.map stripLabel
  match colIndex "날짜" cols with
  | some i =>
      ⟨cols, raw.rows.map (fun r => r.mapIdx (fun j v => if j = i then to_datetime v else v))⟩
  | none => ⟨cols, raw.rows⟩

/-- Startup date-bound computation of `create_app`:
`df["날짜"].min().date()` and `df["날짜"].max().date()`. `none` models a
raised exception — a KeyError when the 날짜 column is absent, or the
`.date()` call failing on NaT when no cell parsed. Series min/max skip
NaT cells. On success it returns the date bounds and the two figures of
the first render. -/
def create_app (raw : DataFrame) :
    Option ((Int × Int) × (List Trace × List Trace)) :=
  let df := load_data raw
  match colIndex "날짜" df.cols with
  | none => none
  | some i =>
    let days := df.rows.filterMap (fun r =>
      match r.getD i Value.missing with
      | .datetime day _ => some day
      | _ => none)
    match days.min?, days.max? with
    | some mi, some ma =>
        some ((mi, ma), (make_original_figure df, make_accumulated_figure df))
    | _, _ => none

/-- Example table: a date column and one secondary series holding the
values `5`, `"x"`, `3`; the last row is timestamped 2022-05-01T23:59. -/
def exDF1 : DataFrame :=
  ⟨["날짜", "외국인"],
   [[Value.datetime (daysFromCivil 2022 4 1) 0, Value.num 5],
    [Value.datetime (daysFromCivil 2022 4 2) 0, Value.str "x"],
    [Value.datetime (daysFromCivil 2022 5 1) 1439, Value.num 3]]⟩

/-- Example table with the primary series present. -/
def exDF2 : DataFrame :=
  ⟨["지수", "외국인"], [[Value.num 100, Value.num 5]]⟩

/-- Example table with no date column. -/
def exNoDate : DataFrame :=
  ⟨["지수"], [[Value.num 1]]⟩

end KospiFlow

namespace KospiFlow

/-- Element `k` of a running sum is the accumulator plus the sum of the
first `k + 1` elements. -/
theorem cumsum_elem (acc : Int) (l : List Int) (k : Nat) (hk : k < l.length) :
    (cumsum acc l)[k]? = some (acc + (l.take (k + 1)).sum) := by
  induction l generalizing acc k with
  | nil => simp at hk
  | cons x xs ih =>
    cases k with
    | zero => simp [cumsum]
    | succ k =>
      have hk2 : k < xs.length := by simpa using hk
      simp only [cumsum, List.getElem?_cons_succ, List.take_succ_cons, List.sum_cons]
      rw [ih (acc + x) k hk2]
      congr 1
      ring

/-- The accumulated trace a present secondary column contributes to
`make_accumulated_figure`. -/
theorem acc_trace_mem (df : DataFrame) (n : String) (i : Nat)
    (hn : n ∈ secondary_names) (hi : colIndex n df.cols = some i) :
    ({ series := n, name := n ++ " (누적)", axis := "y2", color := SERIES_COLORS n,
       y := (accValues (df.rows.map (fun r => r.getD i Value.missing))).map Value.num } : Trace)
      ∈ make_accumulated_figure df := by
  unfold make_accumulated_figure
  refine List.mem_append_right _ (List.mem_filterMap.mpr ⟨n, hn, ?_⟩)
  rw [hi]

/-- The raw trace a present secondary column contributes to
`make_original_figure`. -/
theorem raw_trace_mem (df : DataFrame) (n : String) (i : Nat)
    (hn : n ∈ secondary_names) (hi : colIndex n df.cols = some i) :
    ({ series := n, name := n, axis := "y2", color := SERIES_COLORS n,
       y := (df.rows.map (fun r => r.getD i Value.missing)).map coerceRaw } : Trace)
      ∈ make_original_figure df := by
  unfold make_original_figure
  refine List.mem_append_right _ (List.mem_filterMap.mpr ⟨n, hn, ?_⟩)
  rw [hi]

/-- Every trace of `make_original_figure` is either the primary 지수
trace (raw column, left axis, no explicit color) or the raw trace of a
present secondary column. -/
theorem mem_orig_cases (df : DataFrame) (t : Trace)
    (ht : t ∈ make_original_figure df) :
    (∃ i, colIndex "지수" df.cols = some i ∧
       t = { series := "지수", name := "지수", axis := "y", color := none,
             y := df.rows.map (fun r => r.getD i Value.missing) })
    ∨ (∃ n i, n ∈ secondary_names ∧ colIndex n df.cols = some i ∧
       t = { series := n, name := n, axis := "y2", color := SERIES_COLORS n,
             y := (df.rows.map (fun r => r.getD i Value.missing)).map coerceRaw }) := by
  unfold make_original_figure at ht
  rcases List.mem_append.mp ht with h | h
  · left
    cases h0 : colIndex "지수" df.cols with
    | none => rw [h0] at h; simp at h
    | some i =>
      rw [h0] at h
      simp only [List.mem_singleton] at h
      exact ⟨i, rfl, h⟩
  · right
    obtain ⟨n, hn, hf⟩ := List.mem_filterMap.mp h
    cases h1 : colIndex n df.cols with
    | none => rw [h1] at hf; simp at hf
    | some i =>
      rw [h1] at hf
      simp only [Option.some_inj] at hf
      exact ⟨n, i, hn, h1, hf.symm⟩

/-- Every trace of `make_accumulated_figure` is either the primary 지수
trace (raw column, left axis, no explicit color) or the accumulated
trace of a present secondary column. -/
theorem mem_acc_cases (df : DataFrame) (t : Trace)
    (ht : t ∈ make_accumulated_figure df) :
    (∃ i, colIndex "지수" df.cols = some i ∧
       t = { series := "지수", name := "지수", axis := "y", color := none,
             y := df.rows.map (fun r => r.getD i Value.missing) })
    ∨ (∃ n i, n ∈ secondary_names ∧ colIndex n df.cols = some i ∧
       t = { series := n, name := n ++ " (누적)", axis := "y2", color := SERIES_COLORS n,
             y := (accValues (df.rows.map (fun r => r.getD i Value.missing))).map Value.num }) := by
  unfold make_accumulated_figure at ht
  rcases List.mem_append.mp ht with h | h
  · left
    cases h0 : colIndex "지수" df.cols with
    | none => rw [h0] at h; simp at h
    | some i =>
      rw [h0] at h
      simp only [List.mem_singleton] at h
      exact ⟨i, rfl, h⟩
  · right
    obtain ⟨n, hn, hf⟩ := List.mem_filterMap.mp h
    cases h1 : colIndex n df.cols with
    | none => rw [h1] at hf; simp at hf
    | some i =>
      rw [h1] at hf
      simp only [Option.some_inj] at hf
      exact ⟨n, i, hn, h1, hf.symm⟩

/-- C1: for every table and every secondary series present in it, the
accumulated projection placed on the chart is the prefix sum of the
zero-coerced column: at every row index `k` it equals the sum of the
coerced values of rows `0..k` (non-numeric cells coerce to 0). -/
theorem C1_accumulated_is_prefix_sum (df : DataFrame) (n : String)
    (hn : n ∈ secondary_names) (hp : (colIndex n df.cols).isSome = true) :
    ∃ t ∈ make_accumulated_figure df, t.series = n ∧
      t.y = (accValues (colValues df n)).map Value.num ∧
      ∀ k, k < (colValues df n).length →
        (accValues (colValues df n))[k]?
          = some ((((colValues df n).take (k + 1)).map coerceZero).sum) := by
  obtain ⟨i, hi⟩ := Option.isSome_iff_exists.mp hp
  have hcv : colValues df n = df.rows.map (fun r => r.getD i Value.missing) := by
    simp [colValues, hi]
  refine ⟨_, acc_trace_mem df n i hn hi, rfl, by rw [hcv], ?_⟩
  intro k hk
  unfold accValues
  rw [cumsum_elem 0 _ k (by simpa using hk)]
  rw [← List.map_take]
  simp

/-- Witness for C1 at the `[5, "x", 3]` table: the accumulated series
is `[5, 5, 8]`. -/
theorem C1_witness :
    (∃ t ∈ make_accumulated_figure exDF1, t.series = "외국인" ∧
      t.y = (accValues (colValues exDF1 "외국인")).map Value.num ∧
      ∀ k, k < (colValues exDF1 "외국인").length →
        (accValues (colValues exDF1 "외국인"))[k]?
          = some ((((colValues exDF1 "외국인").take (k + 1)).map coerceZero).sum))
    ∧ accValues (colValues exDF1 "외국인") = [5, 5, 8] :=
  ⟨C1_accumulated_is_prefix_sum exDF1 "외국인" (by decide) (by decide), by decide⟩

/-- C2: for every table and every secondary series present in it, the
raw projection placed on the chart coerces each cell to numeric, keeps
numeric cells, and sends every non-numeric cell to the missing marker —
never to zero. -/
theorem C2_raw_keeps_missing (df : DataFrame) (n : String)
    (hn : n ∈ secondary_names) (hp : (colIndex n df.cols).isSome = true) :
    (∃ t ∈ make_original_figure df, t.series = n ∧
       t.y = (colValues df n).map coerceRaw)
    ∧ (∀ v, toNumeric v = none → coerceRaw v = Value.missing)
    ∧ (∀ v m, toNumeric v = some m → coerceRaw v = Value.num m)
    ∧ (∀ v, toNumeric v = none → coerceRaw v ≠ Value.num 0) := by
  obtain ⟨i, hi⟩ := Option.isSome_iff_exists.mp hp
  have hcv : colValues df n = df.rows.map (fun r => r.getD i Value.missing) := by
    simp [colValues, hi]
  refine ⟨⟨_, raw_trace_mem df n i hn hi, rfl, by rw [hcv]⟩, ?_, ?_, ?_⟩
  · intro v h; simp [coerceRaw, h]
  · intro v m h; simp [coerceRaw, h]
  · intro v h; simp [coerceRaw, h]

/-- Witness for C2 at the `[5, "x", 3]` table: the raw series is
`[5, missing, 3]`. -/
theorem C2_witness :
    ((∃ t ∈ make_original_figure exDF1, t.series = "외국인" ∧
       t.y = (colValues exDF1 "외국인").map coerceRaw)
    ∧ (∀ v, toNumeric v = none → coerceRaw v = Value.missing)
    ∧ (∀ v m, toNumeric v = some m → coerceRaw v = Value.num m)
    ∧ (∀ v, toNumeric v = none → coerceRaw v ≠ Value.num 0))
    ∧ (colValues exDF1 "외국인").map coerceRaw
        = [Value.num 5, Value.missing, Value.num 3] :=
  ⟨C2_raw_keeps_missing exDF1 "외국인" (by decide) (by decide), by decide⟩

/-- C3: with both bounds present, the callback rebuilds both figures
from exactly the rows whose date cell, truncated to its calendar day,
lies in the inclusive interval `[s, e]` (rows with no parsed date are
excluded). -/
theorem C3_inclusive_date_filter (df : DataFrame) (i : Nat) (s e : Int)
    (hi : colIndex "날짜" df.cols = some i) :
    update_figures df (some s) (some e)
      = some (make_original_figure ⟨df.cols, rows_in_scope df i s e⟩,
              make_accumulated_figure ⟨df.cols, rows_in_scope df i s e⟩)
    ∧ ∀ r, r ∈ rows_in_scope df i s e
        ↔ r ∈ df.rows ∧ ∃ day m, r.getD i Value.missing = Value.datetime day m
            ∧ s ≤ day ∧ day ≤ e := by
  constructor
  · simp only [update_figures, hi]
  · intro r
    unfold rows_in_scope
    rw [List.mem_filter]
    constructor
    · rintro ⟨hr, hd⟩
      refine ⟨hr, ?_⟩
      cases hv : r.getD i Value.missing <;> rw [hv] at hd <;> simp [dateInRange] at hd
      exact ⟨_, _, rfl, hd.1, hd.2⟩
    · rintro ⟨hr, day, m, hv, h1, h2⟩
      refine ⟨hr, ?_⟩
      unfold dateInRange
      rw [hv]
      simp [h1, h2]

/-- Witness for C3: the row timestamped 2022-05-01T23:59 is selected
when the end bound is the calendar date 2022-05-01. -/
theorem C3_witness :
    [Value.datetime (daysFromCivil 2022 5 1) 1439, Value.num 3]
      ∈ rows_in_scope exDF1 0 (daysFromCivil 2022 4 1) (daysFromCivil 2022 5 1) :=
  ((C3_inclusive_date_filter exDF1 0 (daysFromCivil 2022 4 1)
      (daysFromCivil 2022 5 1) (by decide)).2 _).mpr
    ⟨by decide, daysFromCivil 2022 5 1, 1439, rfl, by decide, by decide⟩

/-- C4: the "all" preset resolves to the table's full span, every
durational preset of `d` days resolves to
`(max (today - d) min_date, today)`, and on the scenario
min = 2020-01-01, max = today = 2025-10-30 the preset "7d" yields
(2025-10-23, 2025-10-30) and "10y" yields (2020-01-01, 2025-10-30). -/
theorem C4_preset_resolution :
    (∀ mi ma t : Int, update_date_range mi ma t "all" = some (mi, ma))
    ∧ (∀ (mi ma t : Int) (p : String) (info : PresetInfo) (d : Int),
        date_presets p = some info → info.days = some d →
        update_date_range mi ma t p = some (max (t - d) mi, t))
    ∧ update_date_range (daysFromCivil 2020 1 1) (daysFromCivil 2025 10 30)
        (daysFromCivil 2025 10 30) "7d"
      = some (daysFromCivil 2025 10 23, daysFromCivil 2025 10 30)
    ∧ update_date_range (daysFromCivil 2020 1 1) (daysFromCivil 2025 10 30)
        (daysFromCivil 2025 10 30) "10y"
      = some (daysFromCivil 2020 1 1, daysFromCivil 2025 10 30) := by
  refine ⟨fun mi ma t => rfl, ?_, by decide, by decide⟩
  intro mi ma t p info d h1 h2
  simp only [update_date_range, h1, h2]

/-- Witness for C4's durational branch at the "30d" preset. -/
theorem C4_witness :
    update_date_range 100 200 300 "30d" = some (max (300 - 30) 100, 300) :=
  C4_preset_resolution.2.1 100 200 300 "30d" ⟨"최근 30일", some 30⟩ 30 (by decide) rfl

/-- C9: a preset key outside the `date_presets` dict leaves the current
date bounds unchanged. -/
theorem C9_unknown_preset_noop (mi ma t : Int) (b : Int × Int) (p : String)
    (h : date_presets p = none) :
    applyPreset mi ma t b p = b := by
  simp only [applyPreset, update_date_range, h]

/-- Witness for C9: submitting "bogus" with current bounds
(2021-01-01, 2021-12-31) keeps those bounds. -/
theorem C9_witness :
    applyPreset (daysFromCivil 2020 1 1) (daysFromCivil 2025 10 30)
      (daysFromCivil 2025 10 30)
      (daysFromCivil 2021 1 1, daysFromCivil 2021 12 31) "bogus"
    = (daysFromCivil 2021 1 1, daysFromCivil 2021 12 31) :=
  C9_unknown_preset_noop (daysFromCivil 2020 1 1) (daysFromCivil 2025 10 30)
    (daysFromCivil 2025 10 30)
    (daysFromCivil 2021 1 1, daysFromCivil 2021 12 31) "bogus" (by decide)

/-- C8: each figure carries exactly one trace per requested series whose
column is present, and a series whose column is absent contributes no
trace to either figure. -/
theorem C8_missing_series_skipped (df : DataFrame) :
    (make_original_figure df).length
      = (requested_names.filter (fun n => (colIndex n df.cols).isSome)).length
    ∧ (make_accumulated_figure df).length
      = (requested_names.filter (fun n => (colIndex n df.cols).isSome)).length
    ∧ ∀ n, colIndex n df.cols = none →
        (∀ t ∈ make_original_figure df, t.series ≠ n)
        ∧ (∀ t ∈ make_accumulated_figure df, t.series ≠ n) := by
  refine ⟨?_, ?_, ?_⟩
  · cases h0 : colIndex "지수" df.cols <;> cases h1 : colIndex "외국인" df.cols <;>
      cases h2 : colIndex "개인" df.cols <;> cases h3 : colIndex "기관종합" df.cols <;>
      simp [make_original_figure, requested_names, secondary_names, h0, h1, h2, h3]
  · cases h0 : colIndex "지수" df.cols <;> cases h1 : colIndex "외국인" df.cols <;>
      cases h2 : colIndex "개인" df.cols <;> cases h3 : colIndex "기관종합" df.cols <;>
      simp [make_accumulated_figure, requested_names, secondary_names, h0, h1, h2, h3]
  · intro n hn
    have key : ∀ t : Trace,
        t ∈ make_original_figure df ∨ t ∈ make_accumulated_figure df →
        t.series ≠ n := by
      intro t ht
      have hser :
          (∃ i, colIndex "지수" df.cols = some i ∧ t.series = "지수")
          ∨ (∃ nn i, colIndex nn df.cols = some i ∧ t.series = nn) := by
        rcases ht with ht | ht
        · rcases mem_orig_cases df t ht with ⟨i, hp, ht2⟩ | ⟨nn, i, _, hp, ht2⟩
          · exact Or.inl ⟨i, hp, by rw [ht2]⟩
          · exact Or.inr ⟨nn, i, hp, by rw [ht2]⟩
        · rcases mem_acc_cases df t ht with ⟨i, hp, ht2⟩ | ⟨nn, i, _, hp, ht2⟩
          · exact Or.inl ⟨i, hp, by rw [ht2]⟩
          · exact Or.inr ⟨nn, i, hp, by rw [ht2]⟩
      rcases hser with ⟨i, hp, hs⟩ | ⟨nn, i, hp, hs⟩ <;> intro hcontra
      · rw [hs] at hcontra
        rw [← hcontra] at hn
        rw [hn] at hp
        exact Option.noConfusion hp
      · rw [hs] at hcontra
        rw [← hcontra] at hn
        rw [hn] at hp
        exact Option.noConfusion hp
    exact ⟨fun t ht => key t (Or.inl ht), fun t ht => key t (Or.inr ht)⟩

/-- Witness for C8: the table with columns 날짜 and 외국인 yields one
trace per figure, and no trace for the absent 개인 series. -/
theorem C8_witness :
    (∀ t ∈ make_original_figure exDF1, t.series ≠ "개인")
    ∧ (∀ t ∈ make_accumulated_figure exDF1, t.series ≠ "개인") :=
  (C8_missing_series_skipped exDF1).2.2 "개인" rfl

/-- C10: when the start bound lies after the end bound, the row scope is
empty, yet the callback still returns both figures and every trace in
them carries no data points. -/
theorem C10_inverted_bounds_safe (df : DataFrame) (i : Nat) (s e : Int)
    (hi : colIndex "날짜" df.cols = some i) (hse : e < s) :
    rows_in_scope df i s e = []
    ∧ ∃ fo ao, update_figures df (some s) (some e) = some (fo, ao)
        ∧ (∀ t ∈ fo, t.y = []) ∧ (∀ t ∈ ao, t.y = []) := by
  have hempty : rows_in_scope df i s e = [] := by
    unfold rows_in_scope
    rw [List.filter_eq_nil_iff]
    intro r hr
    unfold dateInRange
    cases hv : r.getD i Value.missing <;> simp
    omega
  refine ⟨hempty, make_original_figure ⟨df.cols, []⟩,
    make_accumulated_figure ⟨df.cols, []⟩, ?_, ?_, ?_⟩
  · simp only [update_figures, hi, hempty]
  · intro t ht
    rcases mem_orig_cases _ t ht with ⟨j, hp, ht2⟩ | ⟨nn, j, hm, hp, ht2⟩ <;>
      rw [ht2] <;> simp [accValues, cumsum]
  · intro t ht
    rcases mem_acc_cases _ t ht with ⟨j, hp, ht2⟩ | ⟨nn, j, hm, hp, ht2⟩ <;>
      rw [ht2] <;> simp [accValues, cumsum]

/-- Witness for C10 at the example table with bounds
(2022-05-01, 2022-04-01): the scope is empty. -/
theorem C10_witness :
    rows_in_scope exDF1 0 (daysFromCivil 2022 5 1) (daysFromCivil 2022 4 1) = [] :=
  (C10_inverted_bounds_safe exDF1 0 (daysFromCivil 2022 5 1)
    (daysFromCivil 2022 4 1) (by decide) (by decide)).1

/-- C5 counterexample: the claim says a table without the date column
still starts the application; but on such a table startup fails
(`create_app` reads the 날짜 column unconditionally for its min/max
dates). -/
theorem C5_counterexample :
    ¬ ∀ raw : DataFrame, colIndex "날짜" (load_data raw).cols = none →
        (create_app raw).isSome = true := by
  intro h
  exact absurd (h exNoDate (by decide)) (by decide)

/-- C5 amended: when the date column is absent the loader indeed passes
the table through with date parsing skipped, but the application does
not start: `create_app` fails on the missing 날짜 column. -/
theorem C5_amended (raw : DataFrame)
    (h : colIndex "날짜" (raw.cols.map stripLabel) = none) :
    load_data raw = ⟨raw.cols.map stripLabel, raw.rows⟩
    ∧ create_app raw = none := by
  have hld : load_data raw = ⟨raw.cols.map stripLabel, raw.rows⟩ := by
    simp only [load_data, h]
  refine ⟨hld, ?_⟩
  simp only [create_app, hld, h]

/-- Witness for the amended C5 at a one-column table. -/
theorem C5_witness :
    load_data exNoDate = ⟨exNoDate.cols.map stripLabel, exNoDate.rows⟩
    ∧ create_app exNoDate = none :=
  C5_amended exNoDate (by decide)

/-- C6 counterexample: the claim says every produced range lies within
the table's [min_date, max_date]; but a durational preset's end bound is
today, which exceeds max_date when the data ends before today
(min = 2020-01-01, max = 2025-10-30, today = 2025-11-10, preset "7d"). -/
theorem C6_counterexample :
    ¬ ∀ (mi ma today : Int) (p : String) (s e : Int),
        update_date_range mi ma today p = some (s, e) → mi ≤ s ∧ e ≤ ma := by
  intro h
  have h2 := h (daysFromCivil 2020 1 1) (daysFromCivil 2025 10 30)
    (daysFromCivil 2025 11 10) "7d"
    (max (daysFromCivil 2025 11 10 - 7) (daysFromCivil 2020 1 1))
    (daysFromCivil 2025 11 10) (by decide)
  exact absurd h2.2 (by decide)

/-- C6 amended: every resolved range's start bound is clamped below by
the table's min_date, the "all" preset yields exactly
(min_date, max_date), and a durational preset's end bound is today
itself — it is not clamped to max_date. -/
theorem C6_only_start_clamped :
    (∀ (mi ma today : Int) (p : String) (s e : Int),
        update_date_range mi ma today p = some (s, e) → mi ≤ s)
    ∧ (∀ mi ma today : Int, update_date_range mi ma today "all" = some (mi, ma))
    ∧ (∀ (mi ma today : Int) (p : String) (info : PresetInfo) (d : Int),
        date_presets p = some info → info.days = some d →
        update_date_range mi ma today p = some (max (today - d) mi, today)) := by
  refine ⟨?_, fun mi ma t => rfl, ?_⟩
  · intro mi ma today p s e h
    cases hd : date_presets p with
    | none =>
      rw [show update_date_range mi ma today p = none by
        simp only [update_date_range, hd]] at h
      cases h
    | some info =>
      cases hdays : info.days with
      | none =>
        rw [show update_date_range mi ma today p = some (mi, ma) by
          simp only [update_date_range, hd, hdays]] at h
        simp only [Option.some_inj, Prod.mk.injEq] at h
        rw [← h.1]
      | some d =>
        rw [show update_date_range mi ma today p = some (max (today - d) mi, today) by
          simp only [update_date_range, hd, hdays]] at h
        simp only [Option.some_inj, Prod.mk.injEq] at h
        rw [← h.1]
        exact le_max_right _ _
  · intro mi ma today p info d h1 h2
    simp only [update_date_range, h1, h2]

/-- Witness for the amended C6: a "7d" range whose today lies past
max_date keeps its start clamped at min_date's side. -/
theorem C6_witness :
    daysFromCivil 2020 1 1 ≤ max (daysFromCivil 2025 11 10 - 7) (daysFromCivil 2020 1 1) :=
  C6_only_start_clamped.1 (daysFromCivil 2020 1 1) (daysFromCivil 2025 10 30)
    (daysFromCivil 2025 11 10) "7d"
    (max (daysFromCivil 2025 11 10 - 7) (daysFromCivil 2020 1 1))
    (daysFromCivil 2025 11 10) (by decide)

/-- C7 counterexample: the claim says every rendered series gets its
color from the fixed palette; but the primary 지수 trace is built with
no explicit color (only secondary traces set one). -/
theorem C7_counterexample :
    ¬ ∀ (df : DataFrame) (t : Trace),
        t ∈ make_original_figure df ∨ t ∈ make_accumulated_figure df →
        t.color = SERIES_COLORS t.series := by
  intro h
  have h2 := h exDF2
    { series := "지수", name := "지수", axis := "y",
      color := none, y := [Value.num 100] }
    (Or.inl (by decide))
  exact absurd h2 (by decide)

/-- C7 amended: every secondary trace, in both views, carries exactly
its series' color from the fixed palette — so a given secondary series
has the same color in the raw and the accumulated view — while the
primary 지수 trace sets no explicit color in either view. -/
theorem C7_secondary_palette (df : DataFrame) (t1 t2 : Trace)
    (h1 : t1 ∈ make_original_figure df) (h2 : t2 ∈ make_accumulated_figure df) :
    (t1.series ∈ secondary_names → t1.color = SERIES_COLORS t1.series)
    ∧ (t2.series ∈ secondary_names → t2.color = SERIES_COLORS t2.series)
    ∧ (t1.series = t2.series → t1.color = t2.color)
    ∧ (t1.series = "지수" → t1.color = none)
    ∧ (t2.series = "지수" → t2.color = none) := by
  have hx : "지수" ∉ secondary_names := by decide
  rcases mem_orig_cases df t1 h1 with ⟨i, hp, rfl⟩ | ⟨n, i, hn, hp, rfl⟩ <;>
    rcases mem_acc_cases df t2 h2 with ⟨j, hq, rfl⟩ | ⟨m, j, hm, hq, rfl⟩
  · exact ⟨fun hs => absurd (show "지수" ∈ secondary_names from hs) hx,
      fun hs => absurd (show "지수" ∈ secondary_names from hs) hx,
      fun _ => rfl, fun _ => rfl, fun _ => rfl⟩
  · refine ⟨fun hs => absurd (show "지수" ∈ secondary_names from hs) hx,
      fun _ => rfl, ?_, fun _ => rfl, ?_⟩
    · intro hs
      have hs2 : "지수" = m := hs
      rw [← hs2] at hm
      exact absurd hm hx
    · intro hs
      have hs2 : m = "지수" := hs
      rw [hs2] at hm
      exact absurd hm hx
  · refine ⟨fun _ => rfl, fun hs => absurd (show "지수" ∈ secondary_names from hs) hx,
      ?_, ?_, fun _ => rfl⟩
    · intro hs
      have hs2 : n = "지수" := hs
      rw [hs2] at hn
      exact absurd hn hx
    · intro hs
      have hs2 : n = "지수" := hs
      rw [hs2] at hn
      exact absurd hn hx
  · refine ⟨fun _ => rfl, fun _ => rfl, ?_, ?_, ?_⟩
    · intro hs
      have hs2 : n = m := hs
      show SERIES_COLORS n = SERIES_COLORS m
      rw [hs2]
    · intro hs
      have hs2 : n = "지수" := hs
      rw [hs2] at hn
      exact absurd hn hx
    · intro hs
      have hs2 : m = "지수" := hs
      rw [hs2] at hm
      exact absurd hm hx

/-- Witness for the amended C7: the 외국인 series carries the same
palette color in the raw and in the accumulated view. -/
theorem C7_witness :
    ({ series := "외국인", name := "외국인", axis := "y2",
       color := some "#2ecc71", y := [Value.num 5] } : Trace).color
    = ({ series := "외국인", name := "외국인 (누적)", axis := "y2",
         color := some "#2ecc71", y := [Value.num 5] } : Trace).color :=
  (C7_secondary_palette exDF2
    { series := "외국인", name := "외국인", axis := "y2",
      color := some "#2ecc71", y := [Value.num 5] }
    { series := "외국인", name := "외국인 (누적)", axis := "y2",
      color := some "#2ecc71", y := [Value.num 5] }
    (by decide) (by decide)).2.2.1 rfl

end KospiFlow
